import Mathlib

/-!
Shallow embedding of `data_processor.py` (class `F1DataProcessor`) from the
F1-TelemetryHub repository, together with proofs about the claims on its
session-data builder.

Modelling conventions:
* Python exceptions are modelled with `Except String`; a `try/except` block is
  a `match` on the `Except` value of its body.
* A pandas `DataFrame`/`Series` value that the claims inspect is modelled by an
  explicit structure (`CarData`, `ResultRow`, ...); tables whose contents the
  claims never inspect are modelled as `Table` (a list of rows of key/value
  pairs), with `[]` standing for `pd.DataFrame()`.
* A Python attribute that may be absent (`hasattr` checks) is an `Option`
  field; an attribute access or call that may raise is an `Except` field.
* Python `dict` insertion (`telemetry_data[driver] = ...`) is `dictInsert`,
  which keeps the position of an existing key and appends a new one,
  mirroring dict insertion-order semantics.
* The elements of `session.drivers` are driver-number strings (as in FastF1),
  so Python's `str(driver_number)` is the identity here.
* The `Time` telemetry channel is stored already converted to seconds
  (`car_data['Time'].dt.total_seconds()`), as a rational number; `Speed` is
  likewise a rational (km/h).
-/

namespace F1

/-- A Python scalar value as it can appear in the `event_info` mapping:
`None`, a string, a number, or a boolean. -/
inductive PyVal where
  | none
  | str (s : String)
  | num (q : ℚ)
  | bool (b : Bool)
deriving DecidableEq, Repr

/-- Exceptions carry a message string. -/
abbrev Exc := Except String

/-- A row-indexed table whose contents the claims never look into
(lap timing, weather, track status, race control). `[]` is the empty
`pd.DataFrame()`. -/
abbrev Table := List (List (String × PyVal))

/-- A per-driver car-data table (`fastest_lap.get_car_data()` result):
the `Time` channel (in seconds), the `Speed` channel (km/h), and the
`Distance` column when present (`'Distance' in car_data.columns`). -/
structure CarData where
  time : List ℚ
  speed : List ℚ
  distance : Option (List ℚ)
deriving DecidableEq, Repr

/-- `car_data.empty`: the table has no rows. -/
def CarData.isEmpty (cd : CarData) : Bool := cd.time.isEmpty

/-- A lap object; `getCarData` models `fastest_lap.get_car_data()`, which may
raise. -/
structure Lap where
  getCarData : Exc CarData

/-- The result of `session.laps.pick_driver(driver)`: its `.empty` flag and
its `pick_fastest()` call, which may raise or return `None`. -/
structure LapsView where
  isEmpty : Bool
  pickFastest : Exc (Option Lap)

/-- The record returned by `session.get_driver(driver_number)`. -/
structure DriverRecord where
  abbreviation : String
  firstName : String
  lastName : String
  teamName : String
deriving DecidableEq, Repr

/-- One row of the `session.results` table, with the five columns the
builder reads. -/
structure ResultRow where
  driverNumber : String
  abbreviation : String
  fullName : String
  teamName : String
  teamColor : String
deriving DecidableEq, Repr

/-- The `session.event` record, a pandas `Series`: field access by key,
raising `KeyError` when the key is absent. -/
abbrev EventRec := List (String × PyVal)

/-- The object returned by `session.get_circuit_info()`.
`cornersMaxDistance` is `Option.none` when the object has no `corners`
attribute (`hasattr(circuit_info, 'corners')` is false); otherwise it holds
the outcome of evaluating `circuit_info.corners['Distance'].max()`, which may
itself raise. -/
structure CircuitInfo where
  cornersMaxDistance : Option (Exc PyVal)

/-- A fully loaded session handle, as the builder reads it. -/
structure LoadedSession where
  drivers : List String
  laps : Table
  lapsPick : String → Exc LapsView
  results : Option (List ResultRow)
  getDriver : String → Exc (Option DriverRecord)
  event : Option EventRec
  getCircuitInfo : Exc (Option CircuitInfo)
  date : Exc PyVal
  name : Exc PyVal
  weekendSessionType : Option PyVal
  weatherData : Option Table
  trackStatus : Option Table
  raceControlMessages : Option Table

/-- The session object returned by `fastf1.get_session(...)` before loading;
`load` models `session.load(laps=True, telemetry=True, weather=True,
messages=True)`, which populates the handle or raises. -/
structure PreSession where
  load : Exc LoadedSession

/-- The Session Store boundary: `getSession` models
`fastf1.get_session(year, gp, session_type)`. -/
structure Store where
  getSession : Nat → String → String → Exc PreSession

/-- One entry of the driver roster (`driver_info` dict in the Python code). -/
structure DriverInfo where
  number : String
  abbreviation : String
  fullname : String
  team : String
  team_color : String
deriving DecidableEq, Repr

/-- The `SessionData` dataclass. -/
structure SessionData where
  session : LoadedSession
  timing : Table
  telemetry : List (String × CarData)
  weather : Table
  track_status : Table
  race_control : Table
  driver_info : List DriverInfo
  event_info : List (String × PyVal)

/-! ### Telemetry extraction (`_get_telemetry_data`) -/

/-- Lines 203-205: if the table lacks a `Distance` column, derive one as
`Time.dt.total_seconds() * Speed / 3.6`, row-wise; otherwise leave the table
unchanged. -/
def addDistance (cd : CarData) : CarData :=
  match cd.distance with
  | some _ => cd
  | Option.none =>
      { cd with distance := some (List.zipWith (fun t v => t * v / (3.6 : ℚ)) cd.time cd.speed) }

/-- The body of one iteration of the per-driver loop of `_get_telemetry_data`
(everything inside the inner `try`): pick the driver's laps, skip when empty,
pick the fastest lap, skip when `None`, fetch the car data, skip when empty,
and otherwise return the table with the distance channel ensured.
`.ok Option.none` means "skip this driver without raising". -/
def fetchDriver (s : LoadedSession) (d : String) : Exc (Option CarData) :=
  match s.lapsPick d with
  | .error e => .error e
  | .ok dl =>
      if dl.isEmpty then .ok Option.none
      else
        match dl.pickFastest with
        | .error e => .error e
        | .ok Option.none => .ok Option.none
        | .ok (some fl) =>
            match fl.getCarData with
            | .error e => .error e
            | .ok cd =>
                if cd.isEmpty then .ok Option.none
                else .ok (some (addDistance cd))

/-- Python dict assignment `m[k] = v`: replace the value in place when the key
exists, append otherwise. -/
def dictInsert (l : List (String × CarData)) (k : String) (v : CarData) :
    List (String × CarData) :=
  if l.any (fun p => p.1 == k) then
    l.map (fun p => if p.1 == k then (k, v) else p)
  else l ++ [(k, v)]

/-- The driver loop of `_get_telemetry_data`: each driver's fetch is wrapped
in its own `try/except` that logs and continues. -/
def telemetryLoop (s : LoadedSession) :
    List String → List (String × CarData) → List (String × CarData)
  | [], acc => acc
  | d :: ds, acc =>
      match fetchDriver s d with
      | .error _ => telemetryLoop s ds acc
      | .ok Option.none => telemetryLoop s ds acc
      | .ok (some cd) => telemetryLoop s ds (dictInsert acc d cd)

/-- `F1DataProcessor._get_telemetry_data`. The outer `try/except` (returning
`{}`) can only fire if iterating `session.drivers` itself raises; `drivers`
is plain data on a loaded handle here, so the loop is the whole function. -/
def getTelemetryData (s : LoadedSession) : List (String × CarData) :=
  telemetryLoop s s.drivers []

/-- The key set of the telemetry mapping. -/
def keysOf (l : List (String × CarData)) : List String := l.map Prod.fst

/-! ### Roster extraction (`_get_driver_info`) -/

/-- Lines 92-98: the record built from one row of the results table. -/
def resultRecord (r : ResultRow) : DriverInfo :=
  { number := r.driverNumber
    abbreviation := r.abbreviation
    fullname := r.fullName
    team := r.teamName
    team_color := r.teamColor }

/-- The record the fallback loop builds for one driver number, or
`Option.none` when the iteration is skipped: the per-driver lookup raised, it
returned `None`, or the `fastf1.plotting.team_color` lookup `tc` raised
(all caught by the inner `try/except`). -/
def fallbackRecord (tc : String → Exc String) (s : LoadedSession) (n : String) :
    Option DriverInfo :=
  match s.getDriver n with
  | .error _ => Option.none
  | .ok Option.none => Option.none
  | .ok (some dd) =>
      match tc dd.teamName with
      | .error _ => Option.none
      | .ok c =>
          some { number := n
                 abbreviation := dd.abbreviation
                 fullname := dd.firstName ++ " " ++ dd.lastName
                 team := dd.teamName
                 team_color := c }

/-- The fallback loop of `_get_driver_info` (lines 105-119), accumulating
appended records. -/
def driverLoop (tc : String → Exc String) (s : LoadedSession) :
    List String → List DriverInfo → List DriverInfo
  | [], acc => acc
  | n :: ns, acc =>
      match fallbackRecord tc s n with
      | Option.none => driverLoop tc s ns acc
      | some r => driverLoop tc s ns (acc ++ [r])

/-- `F1DataProcessor._get_driver_info`: when the session has a `results`
attribute, one record per results row, returned from inside the `if`; the
fallback iteration over `session.drivers` runs only when `results` is absent.
(`tc` is the external `fastf1.plotting.team_color` lookup used by the
fallback path.) -/
def getDriverInfo (tc : String → Exc String) (s : LoadedSession) : List DriverInfo :=
  match s.results with
  | some rt => rt.map resultRecord
  | Option.none => driverLoop tc s s.drivers []

/-! ### Event metadata extraction (`_get_event_info`) -/

/-- `Series.__getitem__`: field access on the event record, raising `KeyError`
when the key is absent. -/
def getField (ev : EventRec) (k : String) : Exc PyVal :=
  match ev.find? (fun p => p.1 == k) with
  | some p => .ok p.2
  | Option.none => .error ("KeyError: " ++ k)

/-- Lines 136-144: the event-record fields, gathered when the session has an
`event` attribute; evaluated left to right, any `KeyError` aborts (it is NOT
caught locally, only by the outer `try` of `_get_event_info`). -/
def eventFieldsStep (s : LoadedSession) : Exc (List (String × PyVal)) :=
  match s.event with
  | Option.none => .ok []
  | some ev =>
      match getField ev "EventName" with
      | .error e => .error e
      | .ok n =>
          match getField ev "Country" with
          | .error e => .error e
          | .ok c =>
              match getField ev "Location" with
              | .error e => .error e
              | .ok l =>
                  match getField ev "OfficialEventName" with
                  | .error e => .error e
                  | .ok o =>
                      match getField ev "F1ApiSupport" with
                      | .error e => .error e
                      | .ok f =>
                          .ok [("Name", n), ("Country", c), ("Location", l),
                               ("OfficialName", o), ("F1ApiSupport", f)]

/-- Lines 147-152, the body of the circuit-geometry `try`: `.ok (some v)`
when a `CircuitLength` value was computed, `.ok Option.none` when the step
is skipped without raising (falsy circuit info or no `corners` attribute),
`.error` when any call in it raised. -/
def circuitStep (s : LoadedSession) : Exc (Option PyVal) :=
  match s.getCircuitInfo with
  | .error e => .error e
  | .ok Option.none => .ok Option.none
  | .ok (some ci) =>
      match ci.cornersMaxDistance with
      | Option.none => .ok Option.none
      | some (.error e) => .error e
      | some (.ok v) => .ok (some v)

/-- Line 160: `session.weekend_session_type if hasattr(...) else None`. -/
def wkstValue (s : LoadedSession) : PyVal :=
  match s.weekendSessionType with
  | some v => v
  | Option.none => PyVal.none

/-- The whole `try` body of `_get_event_info`: event fields, then the
locally-caught circuit step, then the session date/type entries, then the
final filter dropping `None` values. -/
def eventInfoBody (s : LoadedSession) : Exc (List (String × PyVal)) :=
  match eventFieldsStep s with
  | .error e => .error e
  | .ok ei1 =>
      let ei2 :=
        match circuitStep s with
        | .ok (some v) => ei1 ++ [("CircuitLength", v)]
        | _ => ei1
      match s.date with
      | .error e => .error e
      | .ok d =>
          match s.name with
          | .error e => .error e
          | .ok n =>
              .ok ((ei2 ++ [("Date", d), ("SessionType", n),
                    ("WeekendSessionType", wkstValue s)]).filter
                (fun kv => kv.2 != PyVal.none))

/-- `F1DataProcessor._get_event_info`: the outer `try/except` turns any
uncaught failure into `{}`. -/
def getEventInfo (s : LoadedSession) : List (String × PyVal) :=
  match eventInfoBody s with
  | .ok l => l
  | .error _ => []

/-! ### Top-level assembly (`load_session_data`) -/

/-- Lines 51-72: the bundle assembled from a loaded session (the part of
`load_session_data` after `session.load` succeeded). The `hasattr` fallbacks
substitute an empty table. -/
def buildBundle (tc : String → Exc String) (s : LoadedSession) : SessionData :=
  { session := s
    timing := s.laps
    telemetry := getTelemetryData s
    weather := s.weatherData.getD []
    track_status := s.trackStatus.getD []
    race_control := s.raceControlMessages.getD []
    driver_info := getDriverInfo tc s
    event_info := getEventInfo s }

/-- `F1DataProcessor.load_session_data`: resolve the session, load it, build
the bundle; the surrounding `try/except` logs and re-raises, so any exception
from the Store's resolve/load step propagates unchanged. -/
def loadSessionData (tc : String → Exc String) (store : Store)
    (year : Nat) (gp : String) (sessionType : String) : Exc SessionData :=
  match store.getSession year gp sessionType with
  | .error e => .error e
  | .ok pre =>
      match pre.load with
      | .error e => .error e
      | .ok s => .ok (buildBundle tc s)

end F1

namespace F1

/-! ### Helper lemmas -/

/-- `dictInsert` leaves the key list unchanged when the key is present and
appends it otherwise. -/
theorem keysOf_dictInsert (l : List (String × CarData)) (k : String) (v : CarData) :
    keysOf (dictInsert l k v) =
      if l.any (fun p => p.1 == k) then keysOf l else keysOf l ++ [k] := by
  unfold dictInsert keysOf
  by_cases h : l.any (fun p => p.1 == k)
  · simp only [h, if_true, List.map_map]
    have hfun : (Prod.fst ∘ fun p : String × CarData => if p.1 == k then (k, v) else p) =
        Prod.fst := by
      funext p
      by_cases hp : p.1 == k
      · simp only [Function.comp_apply, hp, if_true]
        exact (beq_iff_eq.mp hp).symm
      · have hne : ¬p.1 = k := fun hpe => hp (beq_iff_eq.mpr hpe)
        simp [Function.comp_apply, hp, hne]
    rw [hfun]
  · simp [h]

/-- Membership in the key list after a `dictInsert`. -/
theorem mem_keysOf_dictInsert (l : List (String × CarData)) (k : String) (v : CarData)
    (m : String) : m ∈ keysOf (dictInsert l k v) ↔ m ∈ keysOf l ∨ m = k := by
  rw [keysOf_dictInsert]
  by_cases h : l.any (fun p => p.1 == k)
  · simp only [h, if_true]
    constructor
    · exact fun hm => Or.inl hm
    · rintro (hm | rfl)
      · exact hm
      · rcases List.any_eq_true.mp h with ⟨p, hp, hpk⟩
        have : p.1 = m := beq_iff_eq.mp hpk
        exact this ▸ List.mem_map_of_mem Prod.fst hp
  · simp [h, or_comm]

/-- Every element of a `dictInsert` result is either an original element or
the inserted pair. -/
theorem mem_dictInsert (l : List (String × CarData)) (k : String) (v : CarData)
    (p : String × CarData) (hp : p ∈ dictInsert l k v) : p ∈ l ∨ p = (k, v) := by
  unfold dictInsert at hp
  by_cases h : l.any (fun q => q.1 == k)
  · simp only [h, if_true] at hp
    rcases List.mem_map.mp hp with ⟨q, hq, hqe⟩
    by_cases hqk : q.1 == k
    · simp only [hqk, if_true] at hqe
      exact Or.inr hqe.symm
    · rw [if_neg hqk] at hqe
      exact Or.inl (hqe ▸ hq)
  · rw [if_neg h] at hp
    rcases List.mem_append.mp hp with h1 | h2
    · exact Or.inl h1
    · exact Or.inr (List.mem_singleton.mp h2)

/-- Key membership across the telemetry loop: a key is present exactly when it
was already in the accumulator or it is a listed driver whose fetch succeeded
with a table. -/
theorem mem_keysOf_telemetryLoop (s : LoadedSession) (l : List String)
    (acc : List (String × CarData)) (k : String) :
    k ∈ keysOf (telemetryLoop s l acc) ↔
      k ∈ keysOf acc ∨ (k ∈ l ∧ ∃ cd, fetchDriver s k = .ok (some cd)) := by
  induction l generalizing acc with
  | nil => simp [telemetryLoop]
  | cons d ds ih =>
      rcases hfd : fetchDriver s d with e | o
      · rw [telemetryLoop, hfd, ih]
        constructor
        · rintro (hm | ⟨hds, hcd⟩)
          · exact Or.inl hm
          · exact Or.inr ⟨List.mem_cons_of_mem d hds, hcd⟩
        · rintro (hm | ⟨hmem, cd, hcd⟩)
          · exact Or.inl hm
          · rcases List.mem_cons.mp hmem with rfl | hds
            · rw [hfd] at hcd; cases hcd
            · exact Or.inr ⟨hds, cd, hcd⟩
      · rcases o with _ | cd
        · rw [telemetryLoop, hfd, ih]
          constructor
          · rintro (hm | ⟨hds, hcd⟩)
            · exact Or.inl hm
            · exact Or.inr ⟨List.mem_cons_of_mem d hds, hcd⟩
          · rintro (hm | ⟨hmem, cd, hcd⟩)
            · exact Or.inl hm
            · rcases List.mem_cons.mp hmem with rfl | hds
              · rw [hfd] at hcd; cases hcd
              · exact Or.inr ⟨hds, cd, hcd⟩
        · rw [telemetryLoop, hfd, ih, mem_keysOf_dictInsert]
          constructor
          · rintro ((hm | hkd) | ⟨hds, hcd⟩)
            · exact Or.inl hm
            · rw [hkd]
              exact Or.inr ⟨List.mem_cons_self d ds, cd, hfd⟩
            · exact Or.inr ⟨List.mem_cons_of_mem d hds, hcd⟩
          · rintro (hm | ⟨hmem, cd', hcd⟩)
            · exact Or.inl (Or.inl hm)
            · rcases List.mem_cons.mp hmem with rfl | hds
              · exact Or.inl (Or.inr rfl)
              · exact Or.inr ⟨hds, cd', hcd⟩

/-- Telemetry keys always come from `session.drivers`. -/
theorem keysOf_getTelemetryData_subset (s : LoadedSession) (k : String)
    (hk : k ∈ keysOf (getTelemetryData s)) :
    k ∈ s.drivers ∧ ∃ cd, fetchDriver s k = .ok (some cd) := by
  have := (mem_keysOf_telemetryLoop s s.drivers [] k).mp hk
  simpa [keysOf] using this

/-- Every pair stored by the telemetry loop comes from the accumulator or
from a successful fetch of its own key. -/
theorem mem_telemetryLoop (s : LoadedSession) (l : List String)
    (acc : List (String × CarData)) (p : String × CarData)
    (hp : p ∈ telemetryLoop s l acc) :
    p ∈ acc ∨ fetchDriver s p.1 = .ok (some p.2) := by
  induction l generalizing acc with
  | nil => exact Or.inl hp
  | cons d ds ih =>
      rcases hfd : fetchDriver s d with e | o
      · rw [telemetryLoop, hfd] at hp
        exact ih acc hp
      · rcases o with _ | cd
        · rw [telemetryLoop, hfd] at hp
          exact ih acc hp
        · rw [telemetryLoop, hfd] at hp
          rcases ih (dictInsert acc d cd) hp with hin | hfetch
          · rcases mem_dictInsert acc d cd p hin with hin' | rfl
            · exact Or.inl hin'
            · exact Or.inr hfd
          · exact Or.inr hfetch

/-- `addDistance` always yields a table with a `Distance` column. -/
theorem addDistance_isSome (cd : CarData) : (addDistance cd).distance.isSome := by
  unfold addDistance
  rcases cd with ⟨t, v, d⟩
  cases d <;> simp

/-- A table returned by a successful per-driver fetch has been passed through
`addDistance`, hence has a `Distance` column. -/
theorem fetchDriver_distance_isSome (s : LoadedSession) (d : String) (cd : CarData)
    (h : fetchDriver s d = .ok (some cd)) : cd.distance.isSome := by
  rcases hlp : s.lapsPick d with e | dl
  · simp [fetchDriver, hlp] at h
  · by_cases hemp : dl.isEmpty
    · simp [fetchDriver, hlp, hemp] at h
    · rcases hpf : dl.pickFastest with e | o
      · simp [fetchDriver, hlp, hemp, hpf] at h
      · rcases o with _ | fl
        · simp [fetchDriver, hlp, hemp, hpf] at h
        · rcases hcd : fl.getCarData with e | cd0
          · simp [fetchDriver, hlp, hemp, hpf, hcd] at h
          · by_cases hce : cd0.isEmpty
            · simp [fetchDriver, hlp, hemp, hpf, hcd, hce] at h
            · simp [fetchDriver, hlp, hemp, hpf, hcd, hce] at h
              exact h ▸ addDistance_isSome cd0

/-- The fallback driver loop collects exactly the resolvable records, in
iteration order. -/
theorem driverLoop_eq (tc : String → Exc String) (s : LoadedSession)
    (l : List String) (acc : List DriverInfo) :
    driverLoop tc s l acc = acc ++ l.filterMap (fallbackRecord tc s) := by
  induction l generalizing acc with
  | nil => simp [driverLoop]
  | cons n ns ih =>
      rcases hr : fallbackRecord tc s n with _ | r
      · simp [driverLoop, hr, ih, List.filterMap_cons]
      · simp [driverLoop, hr, ih, List.filterMap_cons]

/-- A fallback record carries the driver number it was built for. -/
theorem fallbackRecord_number (tc : String → Exc String) (s : LoadedSession)
    (n : String) (r : DriverInfo) (h : fallbackRecord tc s n = some r) :
    r.number = n := by
  rcases hgd : s.getDriver n with e | o
  · simp [fallbackRecord, hgd] at h
  · rcases o with _ | dd
    · simp [fallbackRecord, hgd] at h
    · rcases htc : tc dd.teamName with e | c
      · simp [fallbackRecord, hgd, htc] at h
      · simp only [fallbackRecord, hgd, htc, Option.some.injEq] at h
        rw [← h]

end F1

namespace F1

/-- Row-wise description of `List.zipWith`. -/
theorem get?_zipWith {α β γ : Type} (f : α → β → γ) :
    ∀ (l1 : List α) (l2 : List β) (i : ℕ) (t : α) (v : β),
      l1.get? i = some t → l2.get? i = some v →
      (List.zipWith f l1 l2).get? i = some (f t v)
  | [], _, i, t, v, h1, _ => by simp at h1
  | _ :: _, [], i, t, v, _, h2 => by simp at h2
  | a :: l1, b :: l2, 0, t, v, h1, h2 => by
      simp only [List.get?_cons_zero, Option.some.injEq] at h1 h2
      simp [List.zipWith, h1, h2]
  | a :: l1, b :: l2, (i + 1), t, v, h1, h2 => by
      simp only [List.get?_cons_succ] at h1 h2
      simpa [List.zipWith] using get?_zipWith f l1 l2 i t v h1 h2

/-- `filterMap` only depends on the function's values on the list. -/
theorem filterMap_congr_mem {α β : Type} (f g : α → Option β) :
    ∀ (l : List α), (∀ a ∈ l, f a = g a) → l.filterMap f = l.filterMap g
  | [], _ => rfl
  | a :: l, h => by
      rw [List.filterMap_cons, List.filterMap_cons, h a (List.mem_cons_self a l),
          filterMap_congr_mem f g l (fun x hx => h x (List.mem_cons_of_mem a hx))]

/-- The per-driver telemetry fetch only reads `session.laps.pick_driver`. -/
theorem fetchDriver_congr (s1 s2 : LoadedSession) (d : String)
    (h : s1.lapsPick d = s2.lapsPick d) : fetchDriver s1 d = fetchDriver s2 d := by
  unfold fetchDriver
  rw [h]

/-- The telemetry loop only depends on the lap tables of the listed drivers. -/
theorem telemetryLoop_congr (s1 s2 : LoadedSession) (l : List String)
    (acc : List (String × CarData))
    (h : ∀ d ∈ l, s1.lapsPick d = s2.lapsPick d) :
    telemetryLoop s1 l acc = telemetryLoop s2 l acc := by
  induction l generalizing acc with
  | nil => rfl
  | cons d ds ih =>
      have hd : fetchDriver s1 d = fetchDriver s2 d :=
        fetchDriver_congr s1 s2 d (h d (List.mem_cons_self d ds))
      have hds : ∀ x ∈ ds, s1.lapsPick x = s2.lapsPick x :=
        fun x hx => h x (List.mem_cons_of_mem d hx)
      rcases hfd : fetchDriver s1 d with e | o
      · simp only [telemetryLoop, hfd, hd.symm.trans hfd]
        exact ih _ hds
      · rcases o with _ | cd
        · simp only [telemetryLoop, hfd, hd.symm.trans hfd]
          exact ih _ hds
        · simp only [telemetryLoop, hfd, hd.symm.trans hfd]
          exact ih _ hds

/-- The fallback record only reads `session.get_driver`. -/
theorem fallbackRecord_congr (tc : String → Exc String) (s1 s2 : LoadedSession)
    (n : String) (h : s1.getDriver n = s2.getDriver n) :
    fallbackRecord tc s1 n = fallbackRecord tc s2 n := by
  unfold fallbackRecord
  rw [h]

/-- The fallback roster loop only depends on the per-driver lookups of the
listed driver numbers. -/
theorem driverLoop_congr (tc : String → Exc String) (s1 s2 : LoadedSession)
    (l : List String) (acc : List DriverInfo)
    (h : ∀ n ∈ l, s1.getDriver n = s2.getDriver n) :
    driverLoop tc s1 l acc = driverLoop tc s2 l acc := by
  rw [driverLoop_eq, driverLoop_eq]
  have := filterMap_congr_mem (fallbackRecord tc s1) (fallbackRecord tc s2) l
    (fun n hn => fallbackRecord_congr tc s1 s2 n (h n hn))
  rw [this]

/-- A successful `_get_event_info` body is always the `None`-filter of some
list of entries. -/
theorem eventInfoBody_ok_filter (s : LoadedSession) (l : List (String × PyVal))
    (h : eventInfoBody s = .ok l) :
    ∃ l0 : List (String × PyVal),
      l = List.filter (fun kv => kv.2 != PyVal.none) l0 := by
  rcases hef : eventFieldsStep s with e | ei1
  · simp [eventInfoBody, hef] at h
  · rcases hd : s.date with e | d
    · simp [eventInfoBody, hef, hd] at h
    · rcases hn : s.name with e | n
      · simp [eventInfoBody, hef, hd, hn] at h
      · simp only [eventInfoBody, hef, hd, hn, Except.ok.injEq] at h
        exact ⟨_, h.symm⟩

end F1

namespace F1

/-! ### Concrete fixtures used by counterexamples and witnesses -/

/-- A two-row car-data table with no `Distance` column: samples at 1 s and
2 s, at 36 km/h and 72 km/h. -/
def cdNoDistW : CarData := ⟨[1, 2], [36, 72], Option.none⟩

/-- A lap whose car-data fetch succeeds with `cdNoDistW`. -/
def lapW : Lap := ⟨.ok cdNoDistW⟩

/-- A non-empty laps selection whose fastest lap is `lapW`. -/
def lapsViewW : LapsView := ⟨false, .ok (some lapW)⟩

/-- Lap selection succeeding only for driver `"44"`. -/
def lapsPickW : String → Exc LapsView := fun d =>
  if d == "44" then .ok lapsViewW else .error "no laps"

/-- A driver record for the per-driver lookup. -/
def ddHamW : DriverRecord := ⟨"HAM", "Lewis", "Hamilton", "Mercedes"⟩

/-- Per-driver lookup succeeding only for driver `"44"`. -/
def gdW : String → Exc (Option DriverRecord) := fun n =>
  if n == "44" then .ok (some ddHamW) else .error "lookup failed"

/-- Per-driver lookup succeeding for every driver. -/
def gdAllW : String → Exc (Option DriverRecord) := fun _ => .ok (some ddHamW)

/-- A total team-name-to-color lookup. -/
def tcW : String → Exc String := fun _ => .ok "#00D2BE"

/-- A loaded session handle with the given results table, driver list, lap
selection, and per-driver lookup; the event record is complete, circuit
geometry reports no circuit object, and the weather/track-status/race-control
feeds are absent. -/
def mkSessionW (res : Option (List ResultRow)) (drv : List String)
    (lp : String → Exc LapsView) (gd : String → Exc (Option DriverRecord)) :
    LoadedSession :=
  { drivers := drv
    laps := []
    lapsPick := lp
    results := res
    getDriver := gd
    event := some [("EventName", PyVal.str "Monaco Grand Prix"),
                   ("Country", PyVal.str "Monaco"),
                   ("Location", PyVal.str "Monte Carlo"),
                   ("OfficialEventName", PyVal.str "Grand Prix de Monaco 2023"),
                   ("F1ApiSupport", PyVal.bool true)]
    getCircuitInfo := .ok Option.none
    date := .ok (PyVal.str "2023-05-27")
    name := .ok (PyVal.str "Qualifying")
    weekendSessionType := Option.none
    weatherData := Option.none
    trackStatus := Option.none
    raceControlMessages := Option.none }

/-! ### Claims -/

/-- C10: for every session object that has a `results` attribute at all,
`_get_driver_info` returns exactly one record per row of that results table
(in table order, via `resultRecord`) and never takes the raw-driver-number
fallback path — the result is determined by the table alone; in particular a
present-but-empty results table yields an empty roster rather than
triggering the fallback. -/
theorem C10_results_path (tc : String → Exc String) (s : LoadedSession)
    (rt : List ResultRow) (hres : s.results = some rt) :
    getDriverInfo tc s = rt.map resultRecord ∧
    (getDriverInfo tc s).length = rt.length ∧
    (rt = [] → getDriverInfo tc s = []) := by
  have h1 : getDriverInfo tc s = rt.map resultRecord := by
    simp [getDriverInfo, hres]
  refine ⟨h1, ?_, ?_⟩
  · rw [h1, List.length_map]
  · intro hrt
    rw [h1, hrt]
    rfl

/-- A session whose results table is present but empty, while driver `"44"`
has laps and a resolvable lookup. -/
def sC10 : LoadedSession := mkSessionW (some []) ["44"] lapsPickW gdW

/-- Witness for C10 at `sC10`. -/
theorem C10_results_path_witness :
    getDriverInfo tcW sC10 = List.map resultRecord [] :=
  (C10_results_path tcW sC10 [] rfl).1

/-- C5: for every session handle exposing no results table,
`_get_driver_info` takes the fallback path over the raw driver-number list,
producing (in iteration order) exactly the records of the driver numbers
whose per-driver lookup resolves — `fallbackRecord` builds the record with
number, abbreviation, full name, team, and the team color from the
team-name-to-color lookup `tc`, and is `Option.none` exactly when the lookup
raised, returned `None`, or the color lookup raised — and each produced
record carries the driver number it was built for. -/
theorem C5_fallback_roster (tc : String → Exc String) (s : LoadedSession)
    (hres : s.results = Option.none) :
    getDriverInfo tc s = s.drivers.filterMap (fallbackRecord tc s) ∧
    (∀ n r, fallbackRecord tc s n = some r → r.number = n) := by
  constructor
  · simp [getDriverInfo, hres, driverLoop_eq]
  · exact fun n r h => fallbackRecord_number tc s n r h

/-- A session with no results table and two raw driver numbers, of which only
`"44"` resolves. -/
def sC5 : LoadedSession := mkSessionW Option.none ["44", "16"] lapsPickW gdW

/-- Witness for C5 at `sC5`: the roster is the fallback extraction, which
keeps `"44"` and skips the failing `"16"`. -/
theorem C5_fallback_roster_witness :
    getDriverInfo tcW sC5 = sC5.drivers.filterMap (fallbackRecord tcW sC5) ∧
    getDriverInfo tcW sC5 =
      [⟨"44", "HAM", "Lewis Hamilton", "Mercedes", "#00D2BE"⟩] :=
  ⟨(C5_fallback_roster tcW sC5 rfl).1, by decide⟩

/-- C7: for every session, the `event_info` mapping returned by
`_get_event_info` contains no key whose stored value is `None` — the final
dict comprehension filters such entries out, and the failure path returns the
empty mapping. -/
theorem C7_no_none_values (s : LoadedSession) (kv : String × PyVal)
    (hkv : kv ∈ getEventInfo s) : kv.2 ≠ PyVal.none := by
  rcases hb : eventInfoBody s with e | l
  · simp [getEventInfo, hb] at hkv
  · simp only [getEventInfo, hb] at hkv
    rcases eventInfoBody_ok_filter s l hb with ⟨l0, rfl⟩
    have hp := List.of_mem_filter hkv
    simpa using hp

/-- A session whose event extraction succeeds. -/
def sC7 : LoadedSession := mkSessionW (some []) [] lapsPickW gdW

/-- Witness for C7 at `sC7` and the entry `("Name", "Monaco Grand Prix")`. -/
theorem C7_no_none_values_witness :
    (("Name", PyVal.str "Monaco Grand Prix") : String × PyVal).2 ≠ PyVal.none :=
  C7_no_none_values sC7 ("Name", PyVal.str "Monaco Grand Prix") (by decide)

/-- C8: when the loaded session does not expose a weather (respectively
track-status, race-control) attribute, the assembled bundle's corresponding
field is the empty table; when the attribute is exposed, the bundle holds
that table directly; and the build call on such a session does not raise —
`load_session_data` returns the assembled bundle. -/
theorem C8_missing_feeds (tc : String → Exc String) (s : LoadedSession) :
    ((s.weatherData = Option.none → (buildBundle tc s).weather = []) ∧
     (∀ t, s.weatherData = some t → (buildBundle tc s).weather = t)) ∧
    ((s.trackStatus = Option.none → (buildBundle tc s).track_status = []) ∧
     (∀ t, s.trackStatus = some t → (buildBundle tc s).track_status = t)) ∧
    ((s.raceControlMessages = Option.none → (buildBundle tc s).race_control = []) ∧
     (∀ t, s.raceControlMessages = some t → (buildBundle tc s).race_control = t)) ∧
    (∀ (store : Store) (y : Nat) (gp st : String) (pre : PreSession),
      store.getSession y gp st = .ok pre → pre.load = .ok s →
      loadSessionData tc store y gp st = .ok (buildBundle tc s)) := by
  refine ⟨⟨?_, ?_⟩, ⟨?_, ?_⟩, ⟨?_, ?_⟩, ?_⟩
  · intro h; simp [buildBundle, h]
  · intro t h; simp [buildBundle, h]
  · intro h; simp [buildBundle, h]
  · intro t h; simp [buildBundle, h]
  · intro h; simp [buildBundle, h]
  · intro t h; simp [buildBundle, h]
  · intro store y gp st pre hpre hload
    simp [loadSessionData, hpre, hload]

/-- A resolvable store whose loaded session has no weather feed. -/
def sC8 : LoadedSession := mkSessionW (some []) ["44"] lapsPickW gdW

/-- Its pre-session and store. -/
def preC8 : PreSession := ⟨.ok sC8⟩

/-- A store that resolves every request to `preC8`. -/
def storeC8 : Store := ⟨fun _ _ _ => .ok preC8⟩

/-- Witness for C8: the weather field is the empty table and the build call
returns a bundle. -/
theorem C8_missing_feeds_witness :
    (buildBundle tcW sC8).weather = [] ∧
    loadSessionData tcW storeC8 2023 "Monaco" "Q" = .ok (buildBundle tcW sC8) :=
  ⟨(C8_missing_feeds tcW sC8).1.1 rfl,
   (C8_missing_feeds tcW sC8).2.2.2 storeC8 2023 "Monaco" "Q" preC8 rfl rfl⟩

end F1

namespace F1

/-- C2: the extraction helpers are total functions of the session — their
internal `try/except` blocks mean they never raise past their own boundary
(visible in the types of `getTelemetryData`, `getDriverInfo`, `getEventInfo`)
— and `load_session_data` raises exactly the exceptions of the Store's
resolve (`fastf1.get_session`) or load (`session.load`) step, re-raised
unchanged; whenever resolve and load succeed it returns the assembled
bundle, never a substituted result. -/
theorem C2_error_propagation (tc : String → Exc String) (store : Store)
    (y : Nat) (gp st : String) :
    (∀ e, loadSessionData tc store y gp st = .error e ↔
      (store.getSession y gp st = .error e ∨
       ∃ pre, store.getSession y gp st = .ok pre ∧ pre.load = .error e)) ∧
    (∀ pre s, store.getSession y gp st = .ok pre → pre.load = .ok s →
      loadSessionData tc store y gp st = .ok (buildBundle tc s)) := by
  constructor
  · intro e
    rcases hgs : store.getSession y gp st with e0 | pre
    · simp [loadSessionData, hgs]
    · rcases hld : pre.load with e1 | s0
      · simp [loadSessionData, hgs, hld]
      · simp [loadSessionData, hgs, hld]
  · intro pre s hpre hload
    simp [loadSessionData, hpre, hload]

/-- A store whose resolve step raises. -/
def storeFailW : Store := ⟨fun _ _ _ => .error "network"⟩

/-- Witness for C2: the resolve failure propagates out of the builder
unchanged. -/
theorem C2_error_propagation_witness :
    loadSessionData tcW storeFailW 2023 "Monaco" "Q" = .error "network" :=
  ((C2_error_propagation tcW storeFailW 2023 "Monaco" "Q").1 "network").mpr
    (Or.inl rfl)

/-- C6: for a per-driver car-data table lacking a `Distance` column, the
stored table gains a `Distance` column whose value in every row is
`elapsed_seconds * speed / 3.6` (row-wise over the `Time`-in-seconds and
`Speed` channels), with the other channels unchanged; a table that already
has a `Distance` column is stored unchanged; and every table stored by the
telemetry extraction has been through `addDistance`, hence carries a
`Distance` column. -/
theorem C6_distance_derivation :
    (∀ cd : CarData, cd.distance = Option.none →
      (addDistance cd).time = cd.time ∧ (addDistance cd).speed = cd.speed ∧
      (addDistance cd).distance =
        some (List.zipWith (fun t v => t * v / (3.6 : ℚ)) cd.time cd.speed) ∧
      ∀ (i : ℕ) (t v : ℚ), cd.time.get? i = some t → cd.speed.get? i = some v →
        ((addDistance cd).distance.getD []).get? i = some (t * v / (3.6 : ℚ))) ∧
    (∀ (cd : CarData) (ds : List ℚ), cd.distance = some ds → addDistance cd = cd) ∧
    (∀ (s : LoadedSession) (d : String) (cd : CarData),
      (d, cd) ∈ getTelemetryData s → cd.distance.isSome) := by
  refine ⟨?_, ?_, ?_⟩
  · intro cd hcd
    have heq : addDistance cd = { cd with distance := some (List.zipWith (fun t v => t * v / (3.6 : ℚ)) cd.time cd.speed) } := by
      unfold addDistance
      rw [hcd]
    refine ⟨by rw [heq], by rw [heq], by rw [heq], ?_⟩
    intro i t v ht hv
    rw [heq]
    exact get?_zipWith (fun t v => t * v / (3.6 : ℚ)) cd.time cd.speed i t v ht hv
  · intro cd ds hds
    unfold addDistance
    rw [hds]
  · intro s d cd hmem
    have hmem' : (d, cd) ∈ telemetryLoop s s.drivers [] := hmem
    rcases mem_telemetryLoop s s.drivers [] (d, cd) hmem' with h | h
    · simp at h
    · exact fetchDriver_distance_isSome s d cd h

/-- Witness for C6 at the two-row table `cdNoDistW`: the derived distances
are `1 * 36 / 3.6 = 10` and `2 * 72 / 3.6 = 40`. -/
theorem C6_distance_derivation_witness :
    (addDistance cdNoDistW).distance =
      some (List.zipWith (fun t v => t * v / (3.6 : ℚ)) cdNoDistW.time cdNoDistW.speed) ∧
    (addDistance cdNoDistW).distance = some [(10 : ℚ), 40] := by
  have h := (C6_distance_derivation.1 cdNoDistW rfl).2.2.1
  refine ⟨h, ?_⟩
  rw [h]
  show some (List.zipWith (fun t v => t * v / (3.6 : ℚ)) [1, 2] [36, 72]) =
    some [(10 : ℚ), 40]
  norm_num

/-- C9: the builder is deterministic in its roster order and telemetry keys:
for two loaded sessions for which the Store returns identical underlying
tables (same raw driver list, same results table, pointwise-equal per-driver
lookups and lap selections), the two builds yield the same `driver_info`
list (hence the same ordering) and the same telemetry mapping (hence the
same key set). -/
theorem C9_deterministic_build (tc : String → Exc String) (s1 s2 : LoadedSession)
    (hdrv : s1.drivers = s2.drivers) (hres : s1.results = s2.results)
    (hgd : ∀ d ∈ s1.drivers, s1.getDriver d = s2.getDriver d)
    (hlp : ∀ d ∈ s1.drivers, s1.lapsPick d = s2.lapsPick d) :
    getDriverInfo tc s1 = getDriverInfo tc s2 ∧
    getTelemetryData s1 = getTelemetryData s2 ∧
    keysOf (getTelemetryData s1) = keysOf (getTelemetryData s2) := by
  have htel : getTelemetryData s1 = getTelemetryData s2 := by
    unfold getTelemetryData
    rw [← hdrv]
    exact telemetryLoop_congr s1 s2 s1.drivers [] hlp
  refine ⟨?_, htel, by rw [htel]⟩
  rcases hr1 : s1.results with _ | rt
  · have hr2 : s2.results = Option.none := hres.symm.trans hr1
    simp only [getDriverInfo, hr1, hr2]
    rw [← hdrv]
    exact driverLoop_congr tc s1 s2 s1.drivers [] hgd
  · have hr2 : s2.results = some rt := hres.symm.trans hr1
    simp [getDriverInfo, hr1, hr2]

/-- A session with a results-free roster and one driver. -/
def sC9a : LoadedSession := mkSessionW Option.none ["44"] lapsPickW gdAllW

/-- The same session except that a weather feed is present. -/
def sC9b : LoadedSession := { sC9a with weatherData := some [[("AirTemp", PyVal.num 25)]] }

/-- Witness for C9: the two builds agree on the roster and on the telemetry
keys. -/
theorem C9_deterministic_build_witness :
    getDriverInfo tcW sC9a = getDriverInfo tcW sC9b ∧
    getTelemetryData sC9a = getTelemetryData sC9b ∧
    keysOf (getTelemetryData sC9a) = keysOf (getTelemetryData sC9b) :=
  C9_deterministic_build tcW sC9a sC9b rfl rfl (fun _ _ => rfl) (fun _ _ => rfl)

end F1

namespace F1

/-- C4: for a session in which exactly one driver's telemetry fetch raises
(all other listed drivers' fetches return without raising), the bundle
returned by `load_session_data` contains a telemetry entry for every other
driver whose fetch produced a non-empty fastest-lap car-data table, does not
contain the failing driver, and the build call itself does not raise — it
returns the assembled bundle, whose telemetry field is exactly the
extraction's mapping. -/
theorem C4_partial_failure_containment (tc : String → Exc String) (store : Store)
    (y : Nat) (gp st : String) (pre : PreSession) (s : LoadedSession)
    (d0 e : String)
    (hpre : store.getSession y gp st = .ok pre) (hload : pre.load = .ok s)
    (hd0 : d0 ∈ s.drivers) (hfail : fetchDriver s d0 = .error e)
    (hok : ∀ d ∈ s.drivers, d ≠ d0 → ∃ r, fetchDriver s d = .ok r) :
    (∀ d ∈ s.drivers, d ≠ d0 → ∀ cd, fetchDriver s d = .ok (some cd) →
      d ∈ keysOf (getTelemetryData s)) ∧
    d0 ∉ keysOf (getTelemetryData s) ∧
    loadSessionData tc store y gp st = .ok (buildBundle tc s) ∧
    (buildBundle tc s).telemetry = getTelemetryData s := by
  refine ⟨?_, ?_, ?_, rfl⟩
  · intro d hd _ cd hcd
    show d ∈ keysOf (telemetryLoop s s.drivers [])
    exact (mem_keysOf_telemetryLoop s s.drivers [] d).mpr (Or.inr ⟨hd, cd, hcd⟩)
  · intro hmem
    rcases keysOf_getTelemetryData_subset s d0 hmem with ⟨_, cd, hcd⟩
    rw [hfail] at hcd
    cases hcd
  · simp [loadSessionData, hpre, hload]

/-- Lap selection raising for driver `"16"` only. -/
def lpC4 : String → Exc LapsView := fun d =>
  if d == "16" then .error "telemetry fetch failed" else .ok lapsViewW

/-- A session in which exactly driver `"16"`'s telemetry fetch raises. -/
def sC4 : LoadedSession := mkSessionW (some []) ["44", "16"] lpC4 gdW

/-- Its pre-session and store. -/
def preC4 : PreSession := ⟨.ok sC4⟩

/-- A store that resolves every request to `preC4`. -/
def storeC4 : Store := ⟨fun _ _ _ => .ok preC4⟩

/-- Witness for C4: `"44"` keeps its telemetry, `"16"` is omitted, and the
build returns a bundle. -/
theorem C4_partial_failure_containment_witness :
    "44" ∈ keysOf (getTelemetryData sC4) ∧
    "16" ∉ keysOf (getTelemetryData sC4) ∧
    loadSessionData tcW storeC4 2023 "Monaco" "Q" = .ok (buildBundle tcW sC4) := by
  have h := C4_partial_failure_containment tcW storeC4 2023 "Monaco" "Q" preC4 sC4
    "16" "telemetry fetch failed" rfl rfl (by decide) rfl
    (by
      intro d hd hne
      have hd' : d = "44" ∨ d = "16" := by simpa [sC4, mkSessionW] using hd
      rcases hd' with rfl | rfl
      · exact ⟨some (addDistance cdNoDistW), rfl⟩
      · exact absurd rfl hne)
  exact ⟨h.1 "44" (by decide) (by decide) (addDistance cdNoDistW) rfl, h.2.1, h.2.2.1⟩

/-- A session with a present-but-empty results table while driver `"44"`
still yields telemetry. -/
def sC1 : LoadedSession := mkSessionW (some []) ["44"] lapsPickW gdW

/-- C1 counterexample: at `sC1` the build succeeds with a telemetry key
`"44"` while `driver_info` is empty — the telemetry key appears as no
`number` of any roster entry, so telemetry IS orphaned from the roster. -/
theorem C1_counterexample :
    keysOf (getTelemetryData sC1) = ["44"] ∧ getDriverInfo tcW sC1 = [] :=
  ⟨rfl, rfl⟩

/-- C1 amended: when the roster is built on the fallback path (no results
table) and every listed driver's per-driver lookup resolves to a record,
every telemetry key also occurs as the `number` of some `driver_info`
entry. (As stated the claim fails: when roster extraction degrades — e.g. an
empty results table, or failing per-driver lookups — telemetry keys can be
orphaned, as `C1_counterexample` shows.) -/
theorem C1_no_orphan_telemetry (tc : String → Exc String) (s : LoadedSession)
    (hres : s.results = Option.none)
    (hall : ∀ d ∈ s.drivers, (fallbackRecord tc s d).isSome)
    (k : String) (hk : k ∈ keysOf (getTelemetryData s)) :
    ∃ r ∈ getDriverInfo tc s, r.number = k := by
  rcases keysOf_getTelemetryData_subset s k hk with ⟨hkd, -⟩
  have hsome := hall k hkd
  rcases hfb : fallbackRecord tc s k with _ | r
  · rw [hfb] at hsome
    cases hsome
  · refine ⟨r, ?_, fallbackRecord_number tc s k r hfb⟩
    have hdi : getDriverInfo tc s = s.drivers.filterMap (fallbackRecord tc s) := by
      simp [getDriverInfo, hres, driverLoop_eq]
    rw [hdi]
    exact List.mem_filterMap.mpr ⟨k, hkd, hfb⟩

/-- A fallback-path session in which every listed driver resolves. -/
def sC1w : LoadedSession := mkSessionW Option.none ["44"] lapsPickW gdAllW

/-- Witness for the amended C1 at `sC1w` and key `"44"`. -/
theorem C1_no_orphan_telemetry_witness :
    ∃ r ∈ getDriverInfo tcW sC1w, r.number = "44" :=
  C1_no_orphan_telemetry tcW sC1w rfl (by decide) "44" (by decide)

/-- An event record missing the `Country` field (its read raises `KeyError`),
while the session date and name read fine. -/
def eveC3 : EventRec := [("EventName", PyVal.str "Monaco Grand Prix")]

/-- The session for the C3 counterexample. -/
def sC3 : LoadedSession :=
  { mkSessionW (some []) [] lapsPickW gdW with event := some eveC3 }

/-- C3 counterexample: at `sC3` the event-record-fields sub-step fails, the
session date/type sub-step's sources are non-failing, yet `_get_event_info`
returns the empty mapping — the `Date` and `SessionType` keys obtained from
non-failing sources are missing too, because only the circuit-geometry
sub-step has its own `try/except`; an event-field failure aborts the whole
extraction to `{}` via the outer handler. -/
theorem C3_counterexample :
    eventFieldsStep sC3 = .error "KeyError: Country" ∧
    sC3.date = .ok (PyVal.str "2023-05-27") ∧
    sC3.name = .ok (PyVal.str "Qualifying") ∧
    getEventInfo sC3 = [] :=
  ⟨rfl, rfl, rfl, rfl⟩

/-- C3 amended: `_get_event_info` never raises (it is a total function into
a mapping), and the per-sub-step containment holds only for the
circuit-geometry sub-step: when the event fields, date and name read fine
but the circuit step raises, exactly the other sub-steps' entries are
returned (no `CircuitLength` key); a failure in the event-record fields or
in the session date/type reads instead aborts the whole extraction,
returning the empty mapping. -/
theorem C3_event_info_containment (s : LoadedSession) :
    (∀ e, eventFieldsStep s = .error e → getEventInfo s = []) ∧
    (∀ e, s.date = .error e → getEventInfo s = []) ∧
    (∀ e, s.name = .error e → getEventInfo s = []) ∧
    (∀ l d n e, eventFieldsStep s = .ok l → s.date = .ok d → s.name = .ok n →
      circuitStep s = .error e →
      getEventInfo s =
        (l ++ [("Date", d), ("SessionType", n),
          ("WeekendSessionType", wkstValue s)]).filter
          (fun kv => kv.2 != PyVal.none)) := by
  refine ⟨?_, ?_, ?_, ?_⟩
  · intro e h
    simp [getEventInfo, eventInfoBody, h]
  · intro e h
    rcases hef : eventFieldsStep s with e0 | l <;>
      simp [getEventInfo, eventInfoBody, hef, h]
  · intro e h
    rcases hef : eventFieldsStep s with e0 | l <;>
      rcases hd : s.date with e1 | d <;>
        simp [getEventInfo, eventInfoBody, hef, hd, h]
  · intro l d n e hef hd hn hc
    simp [getEventInfo, eventInfoBody, hef, hd, hn, hc]

/-- Circuit geometry whose `corners['Distance'].max()` computation raises. -/
def ciC3 : CircuitInfo := ⟨some (.error "no Distance column")⟩

/-- A session whose circuit-geometry sub-step raises while everything else
reads fine. -/
def sC3w : LoadedSession :=
  { mkSessionW (some []) [] lapsPickW gdW with getCircuitInfo := .ok (some ciC3) }

/-- Witness for the amended C3 at `sC3w`: the circuit failure is contained —
all other sub-steps' keys survive, only `CircuitLength` is missing. -/
theorem C3_event_info_containment_witness :
    getEventInfo sC3w =
      ([("Name", PyVal.str "Monaco Grand Prix"), ("Country", PyVal.str "Monaco"),
        ("Location", PyVal.str "Monte Carlo"),
        ("OfficialName", PyVal.str "Grand Prix de Monaco 2023"),
        ("F1ApiSupport", PyVal.bool true)] ++
       [("Date", PyVal.str "2023-05-27"), ("SessionType", PyVal.str "Qualifying"),
        ("WeekendSessionType", wkstValue sC3w)]).filter
        (fun kv => kv.2 != PyVal.none) :=
  (C3_event_info_containment sC3w).2.2.2
    [("Name", PyVal.str "Monaco Grand Prix"), ("Country", PyVal.str "Monaco"),
     ("Location", PyVal.str "Monte Carlo"),
     ("OfficialName", PyVal.str "Grand Prix de Monaco 2023"),
     ("F1ApiSupport", PyVal.bool true)]
    (PyVal.str "2023-05-27") (PyVal.str "Qualifying") "no Distance column"
    rfl rfl rfl rfl

end F1
